import Mathlib

/-!
Verification of the gridarr library (src/gridarr.ts) against its
natural-language specification.

The TypeScript classes `GridArr` and `GridArrCell` are shallowly embedded as
Lean structures.  JavaScript numbers are modelled as `Int` where coordinate
arithmetic happens (all relevant operations stay integral) and as `Nat` for
counts and indices.  JavaScript `undefined` and optional parameters are
modelled with `Option`; the constructor, which can `throw`, is modelled as a
function into `Except ConfigError _`.  The JavaScript remainder operator `%`
truncates towards zero, which is `Int.tmod` (not `Int.emod`).
-/

namespace Gridarr

/-- The three overflow policies, source type `OverflowType` (line 269). -/
inductive OverflowType where
  | none
  | wrap
  | constrain
deriving DecidableEq, Repr

/-- A coordinate pair, source type `GridRef` (lines 271-274). -/
structure GridRef where
  x : Int
  y : Int
deriving DecidableEq, Repr

/-- One cell of a grid, source class `GridArrCell` (lines 206-253).
The `_grid` back-reference of the source is a mutable object reference into a
cyclic heap, which a shallow embedding cannot hold by value; it is modelled by
`gridTag`, the uid of the owning grid, and the owning grid is passed
explicitly to `GridArrCell.relative`. -/
structure GridArrCell (T : Type) where
  contents : T
  gridRef : GridRef
  gridTag : Nat
  listIndex : Nat
deriving DecidableEq, Repr

/-- An element of the `items` configuration array: the source accepts
`T[]|GridArrCell<T>[]` and distinguishes the two cases at line 66 with
`instanceof`. -/
inductive GridItem (T : Type) where
  | raw (t : T)
  | cell (c : GridArrCell T)
deriving DecidableEq, Repr

/-- Discriminator for configuration items that are plain values. -/
def GridItem.isRaw : GridItem T → Bool
  | GridItem.raw _ => true
  | GridItem.cell _ => false

/-- Construction configuration, source type `GridConfig` (lines 258-267).
Absent optional fields are `Option.none` (JavaScript `undefined`).  The
defaults reproduce line 26 (`config.items = config.items||[]`). -/
structure GridConfig (T : Type) where
  items : List (GridItem T) := []
  rowCount : Option Nat := Option.none
  colCount : Option Nat := Option.none
  overflowX : Option OverflowType := Option.none
  overflowY : Option OverflowType := Option.none
  overflow : Option OverflowType := Option.none
  filler : Option (Nat → Nat → Nat → T) := Option.none
  uid : Option Nat := Option.none

/-- The constructed grid, source class `GridArr` (lines 12-200):
fields `_items`, `_colCount`, `_rowCount`, `overflowX`, `overflowY`, `_uid`. -/
structure GridArr (T : Type) where
  items : List (GridArrCell T)
  colCount : Nat
  rowCount : Nat
  overflowX : OverflowType
  overflowY : OverflowType
  uid : Nat
deriving DecidableEq, Repr

/-- The construction-time errors thrown by the constructor:
lines 40 and 45 (a single count with no items) and line 55 (too few items
and no filler, the message naming the supplied count and the capacity). -/
inductive ConfigError where
  | colCountWithoutRowCountOrItems
  | rowCountWithoutColCountOrItems
  | insufficientItems (supplied : Nat) (capacity : Nat)
deriving DecidableEq, Repr

/-- JavaScript truthiness of an optional number: `undefined` and `0` are
falsy.  Used for the `config.colCount && config.rowCount` tests of
lines 31-48. -/
def truthyNat (o : Option Nat) : Bool :=
  match o with
  | Option.none => false
  | some n => n != 0

/-- Source function `clamp` (lines 276-278): `Math.max(Math.min(n, b), a)`. -/
def clamp (n a b : Int) : Int :=
  max (min n b) a

/-- Resolution of one coordinate under one policy: the conditional chains of
lines 174-179, identical for the two axes up to the extent used.
JavaScript `%` is truncation, hence `Int.tmod`; `((aX % c) + c) % c` is the
double-remainder normalisation of the source. -/
def resolveAxis (t : OverflowType) (a : Int) (extent : Nat) : Int :=
  match t with
  | OverflowType.wrap => ((Int.tmod a extent) + extent).tmod extent
  | OverflowType.constrain => clamp a 0 ((extent : Int) - 1)
  | OverflowType.none => a

/-- Source method `applyOverflowToGridRef` (lines 170-182).
Line 171: `aOverflowX||this.overflowX`; line 172 (the cross-axis quirk):
`aOverflowY||aOverflowX||this.overflowY`.  All policy values are truthy
strings, so the JavaScript `||` chain is an `Option` fallback chain. -/
def GridArr.applyOverflowToGridRef (g : GridArr T) (aX aY : Int)
    (aOverflowX aOverflowY : Option OverflowType) : GridRef :=
  let tempOverflowX : OverflowType := aOverflowX.getD g.overflowX
  let tempOverflowY : OverflowType := (aOverflowY.orElse fun _ => aOverflowX).getD g.overflowY
  { x := resolveAxis tempOverflowX aX g.colCount
    y := resolveAxis tempOverflowY aY g.rowCount }

/-- Source method `cell` (lines 93-97): resolve, bounds-check, index.
The source returns `undefined` on the failed bounds check (the `throw` at
line 95 is commented out), hence `Option`.  The array access
`this._items[y*this._colCount + x]` is `getElem?`, which is `undefined`
when out of bounds exactly as in JavaScript. -/
def GridArr.cell (g : GridArr T) (aX aY : Int)
    (aOverflowX aOverflowY : Option OverflowType) : Option (GridArrCell T) :=
  let r := g.applyOverflowToGridRef aX aY aOverflowX aOverflowY
  if r.x ≥ (g.colCount : Int) ∨ r.x < 0 ∨ r.y ≥ (g.rowCount : Int) ∨ r.y < 0 then
    Option.none
  else
    g.items[(r.y * g.colCount + r.x).toNat]?

/-- Source method `row` (lines 103-107): `slice(y*colCount, (y+1)*colCount)`. -/
def GridArr.row (g : GridArr T) (idx : Int)
    (aOverflowX aOverflowY : Option OverflowType) : Option (List (GridArrCell T)) :=
  let r := g.applyOverflowToGridRef 0 idx aOverflowX aOverflowY
  if r.y ≥ (g.rowCount : Int) ∨ r.y < 0 then
    Option.none
  else
    some ((g.items.drop (r.y.toNat * g.colCount)).take g.colCount)

/-- Source method `col` (lines 113-121): filter by `idx % colCount === x`
(the `console.log` at line 117 is I/O and has no effect on the result). -/
def GridArr.col (g : GridArr T) (idx : Int)
    (aOverflowX aOverflowY : Option OverflowType) : Option (List (GridArrCell T)) :=
  let r := g.applyOverflowToGridRef idx 0 aOverflowX aOverflowY
  if r.x ≥ (g.colCount : Int) ∨ r.x < 0 then
    Option.none
  else
    some (((g.items.enum.filter fun p => ((p.1 % g.colCount : Nat) : Int) == r.x).map Prod.snd))

/-- Source method `relative` of `GridArrCell` (lines 227-229): delegates to
the owning grid.  The owning grid (the `_grid` back-reference of the source)
is passed explicitly, see the comment on `GridArrCell`. -/
def GridArrCell.relative (c : GridArrCell T) (g : GridArr T) (aX aY : Int)
    (aOverflowX aOverflowY : Option OverflowType) : Option (GridArrCell T) :=
  g.cell (c.gridRef.x + aX) (c.gridRef.y + aY) aOverflowX aOverflowY

/-- Source method `area` (lines 133-161).  Lines 134-135 convert the signed
width and height (which count the reference cell) to signed step counts;
lines 137-142 resolve the top-left anchor; line 144 looks it up with the
grid-level policies (no overrides are forwarded); lines 146-156 enumerate the
offsets row-major via `relative` and drop `undefined` results. -/
def GridArr.area (g : GridArr T) (aX aY aWidth aHeight : Int)
    (aOverflowX aOverflowY : Option OverflowType) : Option (List (GridArrCell T)) :=
  let w : Int := if aWidth < 0 then aWidth + 1 else aWidth - 1
  let h : Int := if aHeight < 0 then aHeight + 1 else aHeight - 1
  let r := g.applyOverflowToGridRef (aX + min w 0) (aY + min h 0) aOverflowX aOverflowY
  match g.cell r.x r.y Option.none Option.none with
  | Option.none => Option.none
  | some c0 =>
    let wAbs := w.natAbs
    let hAbs := h.natAbs
    let temp := (List.range (hAbs + 1)).flatMap fun (rr : Nat) =>
      (List.range (wAbs + 1)).map fun (cc : Nat) =>
        c0.relative g (cc : Int) (rr : Int) aOverflowX aOverflowY
    some (temp.filterMap id)


/-- Specification-side description of the signed-extent area query,
following the words of the claim (spec section 4.3): on an axis with a
negative extent the reference is offset backward by the negative extent
(`abs(extent)-1` steps), on an axis with a positive extent it is not moved;
the top-left anchor is resolved, the query fails if the anchor cell is
absent, and otherwise the `abs(height) * abs(width)` offsets from the anchor
are enumerated in row-major order, silently omitting offsets that resolve to
absent. -/
def areaSignedSpec (g : GridArr T) (aX aY aWidth aHeight : Int)
    (aOverflowX aOverflowY : Option OverflowType) : Option (List (GridArrCell T)) :=
  let backX : Int := if aWidth < 0 then (aWidth.natAbs : Int) - 1 else 0
  let backY : Int := if aHeight < 0 then (aHeight.natAbs : Int) - 1 else 0
  let anchor := g.applyOverflowToGridRef (aX - backX) (aY - backY) aOverflowX aOverflowY
  match g.cell anchor.x anchor.y Option.none Option.none with
  | Option.none => Option.none
  | some c0 =>
    some ((List.range aHeight.natAbs).flatMap fun (rr : Nat) =>
      (List.range aWidth.natAbs).filterMap fun (cc : Nat) =>
        c0.relative g (cc : Int) (rr : Int) aOverflowX aOverflowY)

/-- Dimension inference, lines 31-48 of the constructor.  Returns
`(rowCount, colCount)`.  The conditions use JavaScript truthiness, so a count
of `0` behaves like an absent count.  `Math.ceil(len/c)` for positive
integers is `(len + c - 1) / c`. -/
def inferDims (config : GridConfig T) : Except ConfigError (Nat × Nat) :=
  if truthyNat config.colCount && truthyNat config.rowCount then
    Except.ok (config.rowCount.getD 0, config.colCount.getD 0)
  else if !truthyNat config.colCount && !truthyNat config.rowCount then
    Except.ok (1, config.items.length)
  else if truthyNat config.colCount then
    if config.items.length = 0 then
      Except.error ConfigError.colCountWithoutRowCountOrItems
    else
      let c := config.colCount.getD 0
      Except.ok ((config.items.length + c - 1) / c, c)
  else
    if config.items.length = 0 then
      Except.error ConfigError.rowCountWithoutColCountOrItems
    else
      let r := config.rowCount.getD 0
      Except.ok (r, (config.items.length + r - 1) / r)

/-- Materialisation of the cell at linear index `n`, lines 62-81.
`config.items[n]?` is the element of the sized array of line 61: for
`n < items.length` (and `n` below capacity) it is the original element, and
`Option.none` is an `undefined` padding slot.  A pre-built cell is returned
as-is (lines 66-68); a padding slot is filled by the filler (lines 71-73);
otherwise a new cell is created with position, owning grid and index of the
slot (lines 75-80).  The final branch (padding slot with no filler) wraps
`undefined` in the source; it is unreachable after the check at line 54 and
is given the default element here. -/
def buildCell [Inhabited T] (config : GridConfig T) (uid colCount : Nat)
    (n : Nat) : GridArrCell T :=
  let x := n % colCount
  let y := n / colCount
  match config.items[n]? with
  | some (GridItem.cell c) => c
  | some (GridItem.raw t) =>
    { contents := t, gridRef := { x := (x : Int), y := (y : Int) }, gridTag := uid, listIndex := n }
  | Option.none =>
    match config.filler with
    | some f =>
      { contents := f x y n, gridRef := { x := (x : Int), y := (y : Int) }, gridTag := uid, listIndex := n }
    | Option.none =>
      { contents := default, gridRef := { x := (x : Int), y := (y : Int) }, gridTag := uid, listIndex := n }

/-- The grid record assembled at the end of a successful construction.
Lines 28-29 fix the overflow policies: `overflowX` is
`config.overflow||config.overflowX||'none'` and `overflowY` is
`config.overflow||this.overflowY||this.overflowY` — the source reads the
field `this.overflowY` (still its initial value `'none'`, a truthy string)
where `config.overflowY` might have been intended, so `config.overflowY` is
never consulted.  Line 25 fixes the uid: `config.uid` when defined (an
undefined-check, not a truthiness check), else a time-and-randomness derived
value, modelled by the environment-supplied `autoUid`. -/
def mkGridStruct [Inhabited T] (config : GridConfig T) (autoUid rowCount colCount : Nat) :
    GridArr T :=
  { items := (List.range (colCount * rowCount)).map
      (buildCell config (config.uid.getD autoUid) colCount)
    colCount := colCount
    rowCount := rowCount
    overflowX := (config.overflow.orElse fun _ => config.overflowX).getD OverflowType.none
    overflowY := config.overflow.getD OverflowType.none
    uid := config.uid.getD autoUid }

/-- The constructor, lines 24-82: infer the dimensions, reject an underfilled
grid with no filler (line 54, where `config.items` is always truthy after
line 26 and a function is always truthy), then materialise all cells. -/
def gridarrMk [Inhabited T] (config : GridConfig T) (autoUid : Nat) :
    Except ConfigError (GridArr T) :=
  match inferDims config with
  | Except.error e => Except.error e
  | Except.ok (rowCount, colCount) =>
    if config.items.length < colCount * rowCount ∧ config.filler.isNone then
      Except.error (ConfigError.insufficientItems config.items.length (colCount * rowCount))
    else
      Except.ok (mkGridStruct config autoUid rowCount colCount)

/-! ## Concrete configurations and grids used as witnesses and counterexamples -/

/-- Fallback value for total extraction of a grid from a construction known to
succeed. -/
def emptyGrid : GridArr Nat :=
  { items := [], colCount := 0, rowCount := 0,
    overflowX := OverflowType.none, overflowY := OverflowType.none, uid := 0 }

/-- Extract the grid of a successful construction. -/
def mkOrEmpty (config : GridConfig Nat) (autoUid : Nat) : GridArr Nat :=
  match gridarrMk config autoUid with
  | Except.ok g => g
  | Except.error _ => emptyGrid

/-- A configuration giving both the shorthand and per-axis overflow. -/
def cfgC1 : GridConfig Nat :=
  { items := [GridItem.raw 1],
    overflow := some OverflowType.wrap,
    overflowX := some OverflowType.constrain,
    overflowY := some OverflowType.constrain }

def gC1 : GridArr Nat := mkOrEmpty cfgC1 0

/-- A pre-built cell carrying position, owner tag and list index of a foreign
grid slot. -/
def foreignCell : GridArrCell Nat :=
  { contents := 99, gridRef := { x := 5, y := 5 }, gridTag := 42, listIndex := 17 }

/-- A configuration whose item sequence contains a pre-built cell. -/
def cfgC2bad : GridConfig Nat := { items := [GridItem.cell foreignCell] }

/-- A configuration of raw values only. -/
def cfgC2ok : GridConfig Nat :=
  { items := [10, 20, 30, 40].map GridItem.raw, colCount := some 2 }

def gC2 : GridArr Nat := mkOrEmpty cfgC2ok 0

/-- A 3 by 3 grid of the numbers 1 to 9. -/
def cfgC3 : GridConfig Nat :=
  { items := [1, 2, 3, 4, 5, 6, 7, 8, 9].map GridItem.raw, colCount := some 3 }

def gC3 : GridArr Nat := mkOrEmpty cfgC3 0

/-- A 2 by 3 grid with wrap overflow on both axes. -/
def cfgC4 : GridConfig Nat :=
  { items := [1, 2, 3, 4, 5, 6].map GridItem.raw, colCount := some 3,
    overflow := some OverflowType.wrap }

def gC4 : GridArr Nat := mkOrEmpty cfgC4 0

/-- The filler of scenario E. -/
def fillerC5 : Nat → Nat → Nat → Nat := fun _ _ idx => idx

/-- Scenario E: no items, 5 rows, 3 columns, index filler. -/
def cfgC5 : GridConfig Nat :=
  { rowCount := some 5, colCount := some 3, filler := some fillerC5 }

/-- Two items in a four-cell grid with no filler. -/
def cfgC5no : GridConfig Nat :=
  { items := [GridItem.raw 1, GridItem.raw 2], rowCount := some 2, colCount := some 2 }

/-- A configuration passing an explicit zero column count together with a
row count. -/
def cfgC6bad : GridConfig Nat :=
  { items := [1, 2, 3, 4].map GridItem.raw, rowCount := some 2, colCount := some 0 }

/-- Scenario C: eleven items forced into a 3 by 3 grid. -/
def cfgC6ok : GridConfig Nat :=
  { items := [1, 2, 3, 4, 5, 6, 7, 8, 9, 10, 11].map GridItem.raw,
    rowCount := some 3, colCount := some 3 }

def gC6 : GridArr Nat := mkOrEmpty cfgC6ok 0

/-- A 2 by 2 grid with the default policies. -/
def cfgC7 : GridConfig Nat := { items := [1, 2, 3, 4].map GridItem.raw, colCount := some 2 }

def gC7 : GridArr Nat := mkOrEmpty cfgC7 0

/-- A configuration inserting a pre-built cell at slot 0. -/
def cfgC9 : GridConfig Nat :=
  { items := [GridItem.cell foreignCell, GridItem.raw 7], colCount := some 2 }

def gC9 : GridArr Nat := mkOrEmpty cfgC9 0

/-- A 2 by 3 grid with wrap overflow, for the area-override claim. -/
def cfgC10 : GridConfig Nat :=
  { items := [1, 2, 3, 4, 5, 6].map GridItem.raw, colCount := some 3,
    overflow := some OverflowType.wrap }

def gC10 : GridArr Nat := mkOrEmpty cfgC10 0

/-! ## Helper lemmas -/

/-- Truncated remainder is odd in the dividend. -/
theorem neg_tmod_left (a b : Int) : (-a).tmod b = -(a.tmod b) := by
  rw [Int.tmod_def, Int.tmod_def, Int.neg_tdiv, Int.mul_neg]
  omega

/-- The double-remainder normalisation of the source
(`((a % e) + e) % e` with JavaScript truncated `%`) is the Euclidean
remainder for a positive extent. -/
theorem tmod_wrap_eq_emod (a e : Int) (he : 0 < e) : ((Int.tmod a e) + e).tmod e = a % e := by
  have hub : a.tmod e < e := Int.tmod_lt_of_pos a he
  have hlb : -e < a.tmod e := by
    rcases le_or_lt 0 a with ha | ha
    · have := Int.tmod_nonneg e ha
      omega
    · have h1 : a.tmod e = -((-a).tmod e) := by
        rw [← neg_tmod_left]
        simp
      have h2 : (-a).tmod e < e := Int.tmod_lt_of_pos (-a) he
      omega
  have ht0 : 0 ≤ a.tmod e + e := by omega
  rw [Int.tmod_eq_emod ht0 he.le]
  have h3 : a.tmod e + e = a.tmod e + 1 * e := by ring
  rw [h3, @Int.add_mul_emod_self (a.tmod e) 1 e]
  rw [Int.tmod_def]
  have h4 : a - e * a.tdiv e = a + (-(a.tdiv e)) * e := by ring
  rw [h4, @Int.add_mul_emod_self a (-(a.tdiv e)) e]

/-- Wrap resolution is the Euclidean remainder. -/
theorem resolveAxis_wrap (a : Int) (extent : Nat) (he : 0 < extent) :
    resolveAxis OverflowType.wrap a extent = a % (extent : Int) := by
  unfold resolveAxis
  exact tmod_wrap_eq_emod a extent (by exact_mod_cast he)

/-- Any policy other than pass-through resolves into range on a nonempty
axis. -/
theorem resolveAxis_mem_range (t : OverflowType) (a : Int) (extent : Nat)
    (ht : t ≠ OverflowType.none) (he : 0 < extent) :
    0 ≤ resolveAxis t a extent ∧ resolveAxis t a extent < extent := by
  have heZ : (0 : Int) < (extent : Int) := by exact_mod_cast he
  cases t with
  | none => exact absurd rfl ht
  | wrap =>
    rw [resolveAxis_wrap a extent he]
    exact ⟨Int.emod_nonneg a (by omega), Int.emod_lt_of_pos a heZ⟩
  | constrain =>
    have h1 : resolveAxis OverflowType.constrain a extent = max (min a ((extent : Int) - 1)) 0 := rfl
    rw [h1]
    refine ⟨le_max_right _ _, ?_⟩
    apply max_lt _ heZ
    exact lt_of_le_of_lt (min_le_right _ _) (by omega)

/-- Inversion of a successful construction. -/
theorem gridarrMk_ok_inv [Inhabited T] {config : GridConfig T} {autoUid : Nat} {g : GridArr T}
    (hg : gridarrMk config autoUid = Except.ok g) :
    ∃ rowCount colCount, inferDims config = Except.ok (rowCount, colCount) ∧
      ¬(config.items.length < colCount * rowCount ∧ config.filler.isNone) ∧
      g = mkGridStruct config autoUid rowCount colCount := by
  unfold gridarrMk at hg
  split at hg
  · exact absurd hg (by simp)
  next r c heq =>
    split at hg
    · exact absurd hg (by simp)
    next hcond =>
      injection hg with h
      exact ⟨r, c, heq, hcond, h.symm⟩

/-- The cell list of a constructed grid, element by element. -/
theorem mkGridStruct_getElem [Inhabited T] (config : GridConfig T)
    (autoUid rowCount colCount n : Nat) (hn : n < colCount * rowCount) :
    (mkGridStruct config autoUid rowCount colCount).items[n]?
      = some (buildCell config (config.uid.getD autoUid) colCount n) := by
  unfold mkGridStruct
  simp [List.getElem?_range hn]

/-- The cell list of a constructed grid has exactly capacity many cells. -/
theorem mkGridStruct_length [Inhabited T] (config : GridConfig T)
    (autoUid rowCount colCount : Nat) :
    (mkGridStruct config autoUid rowCount colCount).items.length = colCount * rowCount := by
  unfold mkGridStruct
  simp

/-- Filtering the defined results of a row-major enumeration commutes with
flattening. -/
theorem filterMap_id_flatMap_map {α β γ : Type} (l : List α) (m : α → List β)
    (f : α → β → Option γ) :
    (l.flatMap fun a => (m a).map (f a)).filterMap id
      = l.flatMap fun a => (m a).filterMap (f a) := by
  induction l with
  | nil => rfl
  | cons a l ih =>
    simp only [List.flatMap_cons, List.filterMap_append, ih]
    congr 1
    rw [List.filterMap_map]
    rfl


/-! ## Claim theorems -/

/-- Claim C1 (amended): the shorthand takes precedence. -/
theorem gridarr_c1 [Inhabited T] (config : GridConfig T) (autoUid : Nat) (g : GridArr T)
    (hg : gridarrMk config autoUid = Except.ok g) :
    g.overflowX = (config.overflow.orElse fun _ => config.overflowX).getD OverflowType.none
    ∧ g.overflowY = config.overflow.getD OverflowType.none := by
  obtain ⟨r, c, _, _, rfl⟩ := gridarrMk_ok_inv hg
  exact ⟨rfl, rfl⟩

/-- Claim C1 counterexample. -/
theorem gridarr_c1_counterexample :
    ((gridarrMk cfgC1 0).toOption.map GridArr.overflowX ≠ some OverflowType.constrain)
    ∧ ((gridarrMk cfgC1 0).toOption.map GridArr.overflowX = some OverflowType.wrap)
    ∧ ((gridarrMk cfgC1 0).toOption.map GridArr.overflowY ≠ some OverflowType.constrain)
    ∧ ((gridarrMk cfgC1 0).toOption.map GridArr.overflowY = some OverflowType.wrap) := by
  decide

/-- Claim C1 witness. -/
theorem gridarr_c1_witness :
    gC1.overflowX = (cfgC1.overflow.orElse fun _ => cfgC1.overflowX).getD OverflowType.none
    ∧ gC1.overflowY = cfgC1.overflow.getD OverflowType.none :=
  gridarr_c1 cfgC1 0 gC1 rfl

/-- Claim C8. -/
theorem gridarr_c8 (g : GridArr T) (aX aY : Int) (ox : OverflowType) :
    (g.applyOverflowToGridRef aX aY (some ox) Option.none
      = g.applyOverflowToGridRef aX aY (some ox) (some ox))
    ∧ ((g.applyOverflowToGridRef aX aY (some ox) Option.none).y
      = resolveAxis ox aY g.rowCount)
    ∧ (∀ p : OverflowType,
        ({ g with overflowY := p } : GridArr T).applyOverflowToGridRef aX aY (some ox) Option.none
          = g.applyOverflowToGridRef aX aY (some ox) Option.none)
    ∧ ((g.applyOverflowToGridRef aX aY Option.none Option.none).y
      = resolveAxis g.overflowY aY g.rowCount) :=
  ⟨rfl, rfl, fun _ => rfl, rfl⟩

/-- Claim C7. -/
theorem gridarr_c7 (g : GridArr T) (oX oY : Option OverflowType) :
    (∀ aX aY : Int,
      ((g.applyOverflowToGridRef aX aY oX oY).x ≥ (g.colCount : Int)
        ∨ (g.applyOverflowToGridRef aX aY oX oY).x < 0
        ∨ (g.applyOverflowToGridRef aX aY oX oY).y ≥ (g.rowCount : Int)
        ∨ (g.applyOverflowToGridRef aX aY oX oY).y < 0) →
      g.cell aX aY oX oY = Option.none)
    ∧ (∀ idx : Int,
      ((g.applyOverflowToGridRef 0 idx oX oY).y ≥ (g.rowCount : Int)
        ∨ (g.applyOverflowToGridRef 0 idx oX oY).y < 0) →
      g.row idx oX oY = Option.none)
    ∧ (∀ idx : Int,
      ((g.applyOverflowToGridRef idx 0 oX oY).x ≥ (g.colCount : Int)
        ∨ (g.applyOverflowToGridRef idx 0 oX oY).x < 0) →
      g.col idx oX oY = Option.none)
    ∧ (∀ aX aY aWidth aHeight : Int,
      g.cell
        (g.applyOverflowToGridRef
          (aX + min (if aWidth < 0 then aWidth + 1 else aWidth - 1) 0)
          (aY + min (if aHeight < 0 then aHeight + 1 else aHeight - 1) 0) oX oY).x
        (g.applyOverflowToGridRef
          (aX + min (if aWidth < 0 then aWidth + 1 else aWidth - 1) 0)
          (aY + min (if aHeight < 0 then aHeight + 1 else aHeight - 1) 0) oX oY).y
        Option.none Option.none = Option.none →
      g.area aX aY aWidth aHeight oX oY = Option.none) := by
  refine ⟨?_, ?_, ?_, ?_⟩
  · intro aX aY h
    simp only [GridArr.cell]
    rw [if_pos h]
  · intro idx h
    simp only [GridArr.row]
    rw [if_pos h]
  · intro idx h
    simp only [GridArr.col]
    rw [if_pos h]
  · intro aX aY aWidth aHeight h
    simp only [GridArr.area]
    rw [h]

/-- Claim C7 witness. -/
theorem gridarr_c7_witness :
    gC7.cell 5 0 Option.none Option.none = Option.none
    ∧ gC7.row 9 Option.none Option.none = Option.none
    ∧ gC7.col (-1) Option.none Option.none = Option.none
    ∧ gC7.area 5 5 1 1 Option.none Option.none = Option.none :=
  ⟨(gridarr_c7 gC7 Option.none Option.none).1 5 0 (by decide),
   (gridarr_c7 gC7 Option.none Option.none).2.1 9 (by decide),
   (gridarr_c7 gC7 Option.none Option.none).2.2.1 (-1) (by decide),
   (gridarr_c7 gC7 Option.none Option.none).2.2.2 5 5 1 1 (by decide)⟩


/-- Claim C4. -/
theorem gridarr_c4 (g : GridArr T)
    (hx : g.overflowX = OverflowType.wrap) (hy : g.overflowY = OverflowType.wrap)
    (hc : 0 < g.colCount) (hr : 0 < g.rowCount) :
    (∀ aX aY : Int,
      g.applyOverflowToGridRef aX aY Option.none Option.none
        = { x := aX % (g.colCount : Int), y := aY % (g.rowCount : Int) }
      ∧ 0 ≤ aX % (g.colCount : Int) ∧ aX % (g.colCount : Int) < (g.colCount : Int)
      ∧ 0 ≤ aY % (g.rowCount : Int) ∧ aY % (g.rowCount : Int) < (g.rowCount : Int))
    ∧ (∀ x y k : Int, 0 ≤ x → x < (g.colCount : Int) → 0 ≤ y → y < (g.rowCount : Int) →
      g.cell (x + k * (g.colCount : Int)) y Option.none Option.none
        = g.cell x y Option.none Option.none) := by
  have hcZ : (0 : Int) < (g.colCount : Int) := by exact_mod_cast hc
  have hrZ : (0 : Int) < (g.rowCount : Int) := by exact_mod_cast hr
  constructor
  · intro aX aY
    refine ⟨?_, Int.emod_nonneg aX (by omega), Int.emod_lt_of_pos aX hcZ,
      Int.emod_nonneg aY (by omega), Int.emod_lt_of_pos aY hrZ⟩
    simp [GridArr.applyOverflowToGridRef, hx, hy,
      resolveAxis_wrap _ _ hc, resolveAxis_wrap _ _ hr]
  · intro x y k hx0 hxlt hy0 hylt
    have h1 : g.applyOverflowToGridRef (x + k * (g.colCount : Int)) y Option.none Option.none
        = g.applyOverflowToGridRef x y Option.none Option.none := by
      simp [GridArr.applyOverflowToGridRef, hx, hy,
        resolveAxis_wrap _ _ hc, resolveAxis_wrap _ _ hr]
    simp [GridArr.cell, h1]

/-- Claim C4 witness. -/
theorem gridarr_c4_witness :
    (gC4.applyOverflowToGridRef (-4) 7 Option.none Option.none
        = { x := (-4 : Int) % (gC4.colCount : Int), y := (7 : Int) % (gC4.rowCount : Int) }
      ∧ 0 ≤ (-4 : Int) % (gC4.colCount : Int) ∧ (-4 : Int) % (gC4.colCount : Int) < (gC4.colCount : Int)
      ∧ 0 ≤ (7 : Int) % (gC4.rowCount : Int) ∧ (7 : Int) % (gC4.rowCount : Int) < (gC4.rowCount : Int))
    ∧ gC4.cell (1 + (-2) * (gC4.colCount : Int)) 1 Option.none Option.none
        = gC4.cell 1 1 Option.none Option.none :=
  ⟨(gridarr_c4 gC4 rfl rfl (by decide) (by decide)).1 (-4) 7,
   (gridarr_c4 gC4 rfl rfl (by decide) (by decide)).2 1 1 (-2)
     (by decide) (by decide) (by decide) (by decide)⟩

/-- Helper for C10: with non-pass-through policies on both axes of a
well-formed nonempty grid, every single-cell lookup without overrides
succeeds. -/
theorem cell_isSome_of_policies (g : GridArr T)
    (hlen : g.items.length = g.rowCount * g.colCount)
    (hc : 0 < g.colCount) (hr : 0 < g.rowCount)
    (hx : g.overflowX ≠ OverflowType.none) (hy : g.overflowY ≠ OverflowType.none)
    (cx cy : Int) :
    (g.cell cx cy Option.none Option.none).isSome = true := by
  have hrx := resolveAxis_mem_range g.overflowX cx g.colCount hx hc
  have hry := resolveAxis_mem_range g.overflowY cy g.rowCount hy hr
  have hex : (g.applyOverflowToGridRef cx cy Option.none Option.none).x
      = resolveAxis g.overflowX cx g.colCount := rfl
  have hey : (g.applyOverflowToGridRef cx cy Option.none Option.none).y
      = resolveAxis g.overflowY cy g.rowCount := rfl
  simp only [GridArr.cell]
  rw [if_neg (by rw [hex, hey]; omega)]
  have hcol0 : (0 : Int) ≤ (g.colCount : Int) := by positivity
  set rx := resolveAxis g.overflowX cx g.colCount with hrx0
  set ry := resolveAxis g.overflowY cy g.rowCount with hry0
  rw [hex, hey]
  have hnn : 0 ≤ ry * (g.colCount : Int) + rx :=
    add_nonneg (mul_nonneg hry.1 hcol0) hrx.1
  have h3 : (ry + 1) * (g.colCount : Int) ≤ (g.rowCount : Int) * (g.colCount : Int) :=
    mul_le_mul_of_nonneg_right (by omega) hcol0
  have h5 : (ry + 1) * (g.colCount : Int) = ry * (g.colCount : Int) + (g.colCount : Int) := by
    ring
  have h4 : ry * (g.colCount : Int) + rx < (g.rowCount : Int) * (g.colCount : Int) := by
    have := hrx.2
    linarith
  have h6 : ((g.rowCount * g.colCount : Nat) : Int) = (g.rowCount : Int) * (g.colCount : Int) := by
    push_cast
    ring
  have hlt : (ry * (g.colCount : Int) + rx).toNat < g.items.length := by
    rw [hlen]
    rw [← h6] at h4
    exact (Int.toNat_lt hnn).mpr h4
  rw [List.getElem?_eq_getElem hlt]
  rfl

/-- Claim C10. -/
theorem gridarr_c10 (g : GridArr T)
    (hlen : g.items.length = g.rowCount * g.colCount)
    (hc : 0 < g.colCount) (hr : 0 < g.rowCount)
    (hx : g.overflowX ≠ OverflowType.none) (hy : g.overflowY ≠ OverflowType.none)
    (aX aY aWidth aHeight : Int) :
    (g.area aX aY aWidth aHeight (some OverflowType.none) (some OverflowType.none)).isSome
      = true := by
  simp only [GridArr.area]
  obtain ⟨c0, hc0⟩ := Option.isSome_iff_exists.mp
    (cell_isSome_of_policies g hlen hc hr hx hy
      ((g.applyOverflowToGridRef
        (aX + min (if aWidth < 0 then aWidth + 1 else aWidth - 1) 0)
        (aY + min (if aHeight < 0 then aHeight + 1 else aHeight - 1) 0)
        (some OverflowType.none) (some OverflowType.none)).x)
      ((g.applyOverflowToGridRef
        (aX + min (if aWidth < 0 then aWidth + 1 else aWidth - 1) 0)
        (aY + min (if aHeight < 0 then aHeight + 1 else aHeight - 1) 0)
        (some OverflowType.none) (some OverflowType.none)).y))
  rw [hc0]
  rfl

/-- Claim C10 witness. -/
theorem gridarr_c10_witness :
    (gC10.area 100 (-7) 2 2 (some OverflowType.none) (some OverflowType.none)).isSome = true :=
  gridarr_c10 gC10 rfl (by decide) (by decide) (by decide) (by decide) 100 (-7) 2 2


/-- Claim C2 (amended). -/
theorem gridarr_c2 [Inhabited T] (config : GridConfig T) (autoUid : Nat) (g : GridArr T)
    (hg : gridarrMk config autoUid = Except.ok g) :
    g.items.length = g.rowCount * g.colCount
    ∧ (config.items.all GridItem.isRaw = true →
      ∀ n, n < g.items.length →
        g.items[n]?.map GridArrCell.listIndex = some n
        ∧ g.items[n]?.map GridArrCell.gridRef
          = some { x := ((n % g.colCount : Nat) : Int), y := ((n / g.colCount : Nat) : Int) }) := by
  obtain ⟨row, col, hdims, hcond, rfl⟩ := gridarrMk_ok_inv hg
  constructor
  · rw [mkGridStruct_length]
    show col * row = row * col
    ring
  · intro hraw n hn
    rw [mkGridStruct_length] at hn
    rw [mkGridStruct_getElem config autoUid row col n hn]
    have hcolEq : (mkGridStruct config autoUid row col).colCount = col := rfl
    rw [hcolEq]
    match hitem : config.items[n]? with
    | Option.none =>
      match hf : config.filler with
      | Option.none => simp [buildCell, hitem, hf]
      | some f => simp [buildCell, hitem, hf]
    | some (GridItem.raw t) => simp [buildCell, hitem]
    | some (GridItem.cell c) =>
      exfalso
      obtain ⟨hlt, heq⟩ := List.getElem?_eq_some_iff.mp hitem
      have hmem := List.getElem_mem hlt
      rw [heq] at hmem
      have := List.all_eq_true.mp hraw _ hmem
      simp [GridItem.isRaw] at this

/-- Claim C2 counterexample. -/
theorem gridarr_c2_counterexample :
    ((gridarrMk cfgC2bad 0).toOption.bind fun g => g.items[0]?.map GridArrCell.listIndex)
      ≠ some 0
    ∧ ((gridarrMk cfgC2bad 0).toOption.bind fun g => g.items[0]?.map GridArrCell.listIndex)
      = some 17
    ∧ ((gridarrMk cfgC2bad 0).toOption.bind fun g => g.items[0]?.map GridArrCell.gridRef)
      = some { x := 5, y := 5 } := by
  decide

/-- Claim C2 witness. -/
theorem gridarr_c2_witness :
    gC2.items.length = gC2.rowCount * gC2.colCount
    ∧ (gC2.items[3]?.map GridArrCell.listIndex = some 3
      ∧ gC2.items[3]?.map GridArrCell.gridRef
        = some { x := ((3 % gC2.colCount : Nat) : Int), y := ((3 / gC2.colCount : Nat) : Int) }) :=
  ⟨(gridarr_c2 cfgC2ok 0 gC2 rfl).1,
   (gridarr_c2 cfgC2ok 0 gC2 rfl).2 (by decide) 3 (by decide)⟩

/-- Claim C5. -/
theorem gridarr_c5 [Inhabited T] (config : GridConfig T) (autoUid : Nat) (r c : Nat)
    (hdims : inferDims config = Except.ok (r, c))
    (hlt : config.items.length < c * r) :
    (config.filler = Option.none →
      gridarrMk config autoUid
        = Except.error (ConfigError.insufficientItems config.items.length (c * r)))
    ∧ (∀ f, config.filler = some f →
      (gridarrMk config autoUid).isOk = true
      ∧ ∀ n, config.items.length ≤ n → n < c * r →
        ((gridarrMk config autoUid).toOption.bind fun g =>
          g.items[n]?.map GridArrCell.contents) = some (f (n % c) (n / c) n)) := by
  constructor
  · intro hf
    simp only [gridarrMk, hdims]
    rw [if_pos ⟨hlt, by rw [hf]; rfl⟩]
  · intro f hf
    have hcond : ¬(config.items.length < c * r ∧ config.filler.isNone) := by
      rw [hf]
      simp
    simp only [gridarrMk, hdims]
    rw [if_neg hcond]
    refine ⟨rfl, ?_⟩
    intro n hn1 hn2
    simp only [Except.toOption, Option.bind]
    rw [mkGridStruct_getElem config autoUid r c n hn2]
    have hnone : config.items[n]? = Option.none := List.getElem?_eq_none hn1
    simp [buildCell, hnone, hf]

/-- Claim C5 witness. -/
theorem gridarr_c5_witness :
    gridarrMk cfgC5no 0 = Except.error (ConfigError.insufficientItems 2 4)
    ∧ (gridarrMk cfgC5 0).isOk = true
    ∧ ((gridarrMk cfgC5 0).toOption.bind fun g => g.items[14]?.map GridArrCell.contents)
        = some 14
    ∧ ((gridarrMk cfgC5 0).toOption.map fun g => g.items.map GridArrCell.contents)
        = some [0, 1, 2, 3, 4, 5, 6, 7, 8, 9, 10, 11, 12, 13, 14] :=
  ⟨(gridarr_c5 cfgC5no 0 2 2 rfl (by decide)).1 rfl,
   ((gridarr_c5 cfgC5 0 5 3 rfl (by decide)).2 fillerC5 rfl).1,
   ((gridarr_c5 cfgC5 0 5 3 rfl (by decide)).2 fillerC5 rfl).2 14 (by decide) (by decide),
   by decide⟩

/-- Claim C6 (amended). -/
theorem gridarr_c6 [Inhabited T] (config : GridConfig T) (autoUid : Nat) (r c : Nat)
    (hr : config.rowCount = some r) (hc : config.colCount = some c)
    (hr1 : 0 < r) (hc1 : 0 < c) (g : GridArr T)
    (hg : gridarrMk config autoUid = Except.ok g) :
    g.rowCount = r ∧ g.colCount = c ∧ g.items.length = c * r
    ∧ ∀ n t, n < c * r → config.items[n]? = some (GridItem.raw t) →
        g.items[n]?.map GridArrCell.contents = some t := by
  have hcne : c ≠ 0 := by omega
  have hrne : r ≠ 0 := by omega
  have hdims : inferDims config = Except.ok (r, c) := by
    unfold inferDims
    rw [hr, hc]
    simp [truthyNat, hcne, hrne]
  obtain ⟨row, col, hdims2, hcond, rfl⟩ := gridarrMk_ok_inv hg
  rw [hdims] at hdims2
  injection hdims2 with h
  obtain ⟨h1, h2⟩ := Prod.mk.injEq _ _ _ _ ▸ h
  subst h1
  subst h2
  refine ⟨rfl, rfl, ?_, ?_⟩
  · rw [mkGridStruct_length]
  · intro n t hn hitem
    rw [mkGridStruct_getElem config autoUid r c n hn]
    simp [buildCell, hitem]

/-- Claim C6 counterexample. -/
theorem gridarr_c6_counterexample :
    ((gridarrMk cfgC6bad 0).toOption.map GridArr.colCount = some 2)
    ∧ ((gridarrMk cfgC6bad 0).toOption.map GridArr.colCount ≠ some 0)
    ∧ ((gridarrMk cfgC6bad 0).toOption.map fun g => g.items.length) = some 4 := by
  decide

/-- Claim C6 witness. -/
theorem gridarr_c6_witness :
    gC6.rowCount = 3 ∧ gC6.colCount = 3 ∧ gC6.items.length = 3 * 3
    ∧ gC6.items[8]?.map GridArrCell.contents = some 9
    ∧ gC6.items.map GridArrCell.contents = [1, 2, 3, 4, 5, 6, 7, 8, 9] :=
  ⟨(gridarr_c6 cfgC6ok 0 3 3 rfl rfl (by decide) (by decide) gC6 rfl).1,
   (gridarr_c6 cfgC6ok 0 3 3 rfl rfl (by decide) (by decide) gC6 rfl).2.1,
   (gridarr_c6 cfgC6ok 0 3 3 rfl rfl (by decide) (by decide) gC6 rfl).2.2.1,
   (gridarr_c6 cfgC6ok 0 3 3 rfl rfl (by decide) (by decide) gC6 rfl).2.2.2 8 9
     (by decide) rfl,
   by decide⟩

/-- Claim C9. -/
theorem gridarr_c9 [Inhabited T] (config : GridConfig T) (autoUid : Nat) (g : GridArr T)
    (hg : gridarrMk config autoUid = Except.ok g)
    (n : Nat) (c : GridArrCell T)
    (hn : config.items[n]? = some (GridItem.cell c))
    (hcap : n < g.items.length) :
    g.items[n]? = some c := by
  obtain ⟨row, col, hdims, hcond, rfl⟩ := gridarrMk_ok_inv hg
  rw [mkGridStruct_length] at hcap
  rw [mkGridStruct_getElem config autoUid row col n hcap]
  simp [buildCell, hn]

/-- Claim C9 witness. -/
theorem gridarr_c9_witness :
    gC9.items[0]? = some foreignCell
    ∧ foreignCell.listIndex = 17
    ∧ foreignCell.gridRef = { x := 5, y := 5 }
    ∧ foreignCell.gridTag = 42
    ∧ gC9.uid = 0 :=
  ⟨gridarr_c9 cfgC9 0 gC9 rfl 0 foreignCell rfl (by decide),
   by decide, by decide, by decide, by decide⟩


/-- Claim C3. -/
theorem gridarr_c3 (g : GridArr T) (aX aY aWidth aHeight : Int)
    (oX oY : Option OverflowType)
    (hw : aWidth ≠ 0) (hh : aHeight ≠ 0) :
    g.area aX aY aWidth aHeight oX oY = areaSignedSpec g aX aY aWidth aHeight oX oY := by
  have ha1 : aX + min (if aWidth < 0 then aWidth + 1 else aWidth - 1) 0
      = aX - (if aWidth < 0 then (aWidth.natAbs : Int) - 1 else 0) := by
    rcases lt_or_le aWidth 0 with h | h
    · rw [if_pos h, if_pos h, min_eq_left (by omega)]
      omega
    · rw [if_neg (by omega), if_neg (by omega), min_eq_right (by omega)]
      omega
  have ha2 : aY + min (if aHeight < 0 then aHeight + 1 else aHeight - 1) 0
      = aY - (if aHeight < 0 then (aHeight.natAbs : Int) - 1 else 0) := by
    rcases lt_or_le aHeight 0 with h | h
    · rw [if_pos h, if_pos h, min_eq_left (by omega)]
      omega
    · rw [if_neg (by omega), if_neg (by omega), min_eq_right (by omega)]
      omega
  have hwn : (if aWidth < 0 then aWidth + 1 else aWidth - 1).natAbs + 1 = aWidth.natAbs := by
    rcases lt_or_le aWidth 0 with h | h
    · rw [if_pos h]
      omega
    · rw [if_neg (by omega)]
      omega
  have hhn : (if aHeight < 0 then aHeight + 1 else aHeight - 1).natAbs + 1
      = aHeight.natAbs := by
    rcases lt_or_le aHeight 0 with h | h
    · rw [if_pos h]
      omega
    · rw [if_neg (by omega)]
      omega
  simp only [GridArr.area, areaSignedSpec, ha1, ha2, hwn, hhn]
  cases hcell : g.cell
      (g.applyOverflowToGridRef (aX - (if aWidth < 0 then (aWidth.natAbs : Int) - 1 else 0))
        (aY - (if aHeight < 0 then (aHeight.natAbs : Int) - 1 else 0)) oX oY).x
      (g.applyOverflowToGridRef (aX - (if aWidth < 0 then (aWidth.natAbs : Int) - 1 else 0))
        (aY - (if aHeight < 0 then (aHeight.natAbs : Int) - 1 else 0)) oX oY).y
      Option.none Option.none with
  | none => rfl
  | some c0 =>
    simp only []
    congr 1
    exact filterMap_id_flatMap_map (List.range aHeight.natAbs)
      (fun _ => List.range aWidth.natAbs)
      (fun rr cc => c0.relative g (cc : Int) (rr : Int) oX oY)

/-- Claim C3 witness. -/
theorem gridarr_c3_witness :
    gC3.area 2 2 (-2) (-2) Option.none Option.none
      = areaSignedSpec gC3 2 2 (-2) (-2) Option.none Option.none
    ∧ (gC3.area 2 2 (-2) (-2) Option.none Option.none).map
        (fun l => l.map GridArrCell.contents) = some [5, 6, 8, 9]
    ∧ gC3.area 0 2 2 (-2) Option.none Option.none
      = areaSignedSpec gC3 0 2 2 (-2) Option.none Option.none
    ∧ (gC3.area 0 2 2 (-2) Option.none Option.none).map
        (fun l => l.map GridArrCell.contents) = some [4, 5, 7, 8] :=
  ⟨gridarr_c3 gC3 2 2 (-2) (-2) Option.none Option.none (by decide) (by decide),
   by decide,
   gridarr_c3 gC3 0 2 2 (-2) Option.none Option.none (by decide) (by decide),
   by decide⟩


end Gridarr
